import Mathlib

/-!
Verification development for the MBAPI2020 Home Assistant integration
(file custom_components/mbapi2020/__init__.py).

The Python source is shallowly embedded: dictionaries and dynamic
attribute access are modelled by a small universe of Python values
(`PyVal`), fallible HTTP calls return a `FetchResult`, and the
`async_setup_entry` vehicle-load loop is modelled as explicit state
passing over a `LoopState` (cars appended, device-registry entries
created, API calls issued, a possible escaped exception).
-/

namespace Mbapi2020

/-- Universe of Python values needed by the embedding: `None`, strings,
booleans, numbers, lists and objects with named attributes. Objects
model the dynamic-attribute data holders the integration reads with
`getattr`. -/
inductive PyVal where
  | vNone : PyVal
  | vStr : String → PyVal
  | vBool : Bool → PyVal
  | vNat : Nat → PyVal
  | vList : List PyVal → PyVal
  | vObj : List (String × PyVal) → PyVal

/-- Whether a `PyVal` is an object (has named attributes). Scalars and
lists have no named telemetry attributes in this model. -/
def PyVal.isObj : PyVal → Bool
  | .vObj _ => true
  | _ => false

/-- Python `getattr(v, name, default)`: the attribute value when `v` is
an object carrying `name`, the default otherwise. It never raises. -/
def pyGetattr (v : PyVal) (name : String) (default : PyVal) : PyVal :=
  match v with
  | .vObj fields =>
    match fields.lookup name with
    | some x => x
    | none => default
  | _ => default

/-- Follow a path of attribute names through nested objects; `none` when
some segment is absent. Used to state what "the lookup path is present
on the car" means. -/
def pyLookup : PyVal → List String → Option PyVal
  | v, [] => some v
  | .vObj fields, n :: rest =>
    match fields.lookup n with
    | some x => pyLookup x rest
    | none => none
  | _, _ :: _ => none

/-- Embedding of `MercedesMeEntity._get_car_value(feature, object_name,
attrib_name, default_value)`: nested `getattr` with the supplied default
at every level, the shape of the chain depending on the truthiness of
`object_name` and `feature` exactly as in the source. -/
def get_car_value (car : PyVal) (feature object_name attrib_name : String)
    (default_value : PyVal) : PyVal :=
  if object_name ≠ "" then
    if feature = "" then
      pyGetattr (pyGetattr car object_name default_value) attrib_name default_value
    else
      pyGetattr (pyGetattr (pyGetattr car feature default_value) object_name default_value)
        attrib_name default_value
  else
    pyGetattr car attrib_name default_value

/-- The attribute path `_get_car_value` traverses, as decided by the
truthiness checks in the source. -/
def carValuePath (feature object_name attrib_name : String) : List String :=
  if object_name ≠ "" then
    if feature = "" then [object_name, attrib_name]
    else [feature, object_name, attrib_name]
  else [attrib_name]

/-- The nested-`getattr` chain of `_get_car_value` as a fold over the
attribute path, with the same default at every level. -/
def chainGet (car : PyVal) (path : List String) (d : PyVal) : PyVal :=
  path.foldl (fun v n => pyGetattr v n d) car

/-- Modelled from the spec: the AttributeCell of the missing car module,
`CarAttribute(value, status, timestamp)` — a value with a validity status
and a timestamp, constructed positionally in the source. -/
structure CarAttribute where
  value : PyVal
  retrievalstatus : String
  timestamp : Nat

/-- Modelled from the spec: the RcpOptions holder of the missing car
module; RCP capability flags, absent until written by `setattr`. -/
structure RcpOptions where
  rcp_supported : Option CarAttribute := none
  rcp_supported_settings : Option CarAttribute := none

/-- Modelled from the spec: the Features holder of the missing car
module. The source writes one boolean per command name with `setattr`;
we model the holder as an association list, empty by default. -/
abbrev Features := List (String × Bool)

/-- One `setattr(features, commandName, isAvailable)` write. -/
def setFeature (f : Features) (name : String) (avail : Bool) : Features :=
  (name, avail) :: f

/-- Modelled from the spec: the VehicleState scalar fields of the missing
car module that `async_setup_entry` writes (`finorvin`, `licenseplate`,
`features`, `rcp_options`, `_last_message_received`, `_is_owner`). Fields
the Python code can leave as `None` are `Option`-valued. -/
structure Car where
  finorvin : Option String := none
  licenseplate : Option String := none
  features : Features := []
  rcp_options : RcpOptions := {}
  last_message_received : Nat := 0
  is_owner : Option Bool := none

/-- One entry of the master-data `assignedVehicles` list, with the keys
`async_setup_entry` reads. `Option` fields model absent dictionary keys;
the nested `salesRelatedInformation.baumuster.baumusterDescription` chain
is modelled as present (a well-formed summary). -/
structure VehicleSummary where
  vin : Option String
  fin : Option String
  licensePlate : Option String
  isOwner : Option Bool
  baumusterDescription : String
  starArchitecture : Option String

/-- Lines 104 to 110: the vehicle identity used for the whole iteration,
the `vin` key when present, else the `fin` key. -/
def resolvedVin (s : VehicleSummary) : Option String :=
  match s.vin with
  | some v => some v
  | none => s.fin

/-- Python `d.get(key, default)` where the default is itself a possibly
absent value (`car.get("licensePlate", vin)`). -/
def pyGetD (v : Option String) (default : Option String) : Option String :=
  match v with
  | some x => some x
  | none => default

/-- Python `not s.strip()` (line 187): whether the string is empty or
whitespace-only, so that stripping leaves the empty, falsy string. -/
def pyStripEmpty (s : String) : Bool :=
  s.data.all Char.isWhitespace

/-- Result of one remote HTTP call: a value, or an `aiohttp.ClientError`. -/
inductive FetchResult (α : Type) where
  | ok : α → FetchResult α
  | clientError : FetchResult α
deriving Repr, DecidableEq

/-- One entry of the `capabilities["commands"]` list: a command name and
its availability flag. -/
structure Command where
  commandName : String
  isAvailable : Bool

/-- Nested shape of the RCP supported-settings response, as read by the
chain `rcp_supported_settings.get("data").get("attributes").get("supportedSettings")`. -/
structure RcpAttributes where
  supportedSettings : Option (List String)

/-- The `data` layer of the RCP supported-settings response. -/
structure RcpData where
  attributes : Option RcpAttributes

/-- The RCP supported-settings response body. -/
structure RcpSupportedSettings where
  data : Option RcpData

/-- The remote REST collaborator: each method of `mercedes.client.api`
that `async_setup_entry` awaits, as a fixed fallible response per
argument. The per-vehicle calls take the possibly absent resolved VIN,
exactly the Python value passed in. -/
structure Api where
  get_user_info : FetchResult (List VehicleSummary)
  get_car_capabilities : Option String → FetchResult Unit
  get_car_capabilities_commands : Option String → FetchResult (List Command)
  is_car_rcp_supported : Option String → FetchResult Bool
  get_car_rcp_supported_settings : Option String → FetchResult (Option RcpSupportedSettings)
  get_car_rcp_settings : Option String → String → FetchResult (Option Unit)

/-- A record of one remote per-vehicle call issued by the loop, used to
state which fetches were executed and in which per-vehicle group. -/
inductive ApiCall where
  | getCarCapabilities : Option String → ApiCall
  | getCarCapabilitiesCommands : Option String → ApiCall
  | isCarRcpSupported : Option String → ApiCall
  | getCarRcpSupportedSettings : Option String → ApiCall
  | getCarRcpSettings : Option String → String → ApiCall
deriving Repr, DecidableEq

/-- The vehicle argument of a recorded call. -/
def ApiCall.vinOf : ApiCall → Option String
  | .getCarCapabilities v => v
  | .getCarCapabilitiesCommands v => v
  | .isCarRcpSupported v => v
  | .getCarRcpSupportedSettings v => v
  | .getCarRcpSettings v _ => v

/-- Whether a recorded call is one of the RCP supported-settings fetches
guarded by the `if rcp_supported:` branch (lines 157 and 180). -/
def isRcpSettingsFetch : ApiCall → Bool
  | .getCarRcpSupportedSettings _ => true
  | .getCarRcpSettings _ _ => true
  | _ => false

/-- A device-registry entry created by `dev_reg.async_get_or_create`
(lines 141 to 149): identifier, raw name, model and software version. -/
structure DevRegEntry where
  identifier : Option String
  name : Option String
  model : String
  sw_version : Option String

/-- An exception escaping the loop body: an `aiohttp.ClientError` (caught
at line 203 and turned into `ConfigEntryNotReady`) or an
`AttributeError` from `None.strip()` (caught nowhere). -/
inductive LoopErr where
  | clientError : LoopErr
  | attributeError : LoopErr
deriving Repr, DecidableEq

/-- Accumulated observable effects of the vehicle-load loop: the cars
appended to `client.cars`, the device-registry entries created, and the
remote calls issued. -/
structure LoopState where
  cars : List Car
  devEntries : List DevRegEntry
  calls : List ApiCall

/-- Line 113: `vin in config_entry.options.get("excluded_cars", ...)`,
with the option modelled as the collection of excluded identifiers;
`None` is a member of no string collection. -/
def vinExcluded (vin : Option String) (excluded : List String) : Bool :=
  match vin with
  | some v => decide (v ∈ excluded)
  | none => false

/-- The per-setting loop of lines 177 to 182: awaits
`get_car_rcp_settings` for each supported setting; a client error there
is caught by no local handler and escapes. (Dead code in the source,
embedded for fidelity.) -/
def fetchRcpSettingsLoop (api : Api) (vin : Option String) :
    List String → List ApiCall × Option LoopErr
  | [] => ([], none)
  | s :: rest =>
    match api.get_car_rcp_settings vin s with
    | .clientError => ([.getCarRcpSettings vin s], some .clientError)
    | .ok _ =>
      let r := fetchRcpSettingsLoop api vin rest
      (.getCarRcpSettings vin s :: r.1, r.2)

/-- The body of the `if rcp_supported:` branch, lines 157 to 182: fetch
the supported settings, record them in the options holder when the
nested keys are present and non-empty, then fetch each setting. (Dead
code in the source, embedded for fidelity.) -/
def rcpBranch (api : Api) (vin : Option String) (rcp_options : RcpOptions) :
    RcpOptions × List ApiCall × Option LoopErr :=
  match api.get_car_rcp_supported_settings vin with
  | .clientError => (rcp_options, [.getCarRcpSupportedSettings vin], some .clientError)
  | .ok none => (rcp_options, [.getCarRcpSupportedSettings vin], none)
  | .ok (some rss) =>
    match rss.data with
    | none => (rcp_options, [.getCarRcpSupportedSettings vin], none)
    | some d =>
      match d.attributes with
      | none => (rcp_options, [.getCarRcpSupportedSettings vin], none)
      | some attrs =>
        match attrs.supportedSettings with
        | none => (rcp_options, [.getCarRcpSupportedSettings vin], none)
        | some settings =>
          if settings.isEmpty then
            (rcp_options, [.getCarRcpSupportedSettings vin], none)
          else
            let rcp_options :=
              { rcp_options with
                rcp_supported_settings :=
                  some ⟨.vList (settings.map .vStr), "VALID", 0⟩ }
            let r := fetchRcpSettingsLoop api vin settings
            (rcp_options, .getCarRcpSupportedSettings vin :: r.1, r.2)

/-- Lines 128 to 139: the feature flags loaded for one vehicle — one
`setattr` per command on success, the default (empty) holder when the
commands fetch fails with a client error (the error is absorbed by the
local `except aiohttp.ClientError` block). -/
def loadedFeatures (api : Api) (vin : Option String) : Features :=
  match api.get_car_capabilities_commands vin with
  | .ok cmds => cmds.foldl (fun f c => setFeature f c.commandName c.isAvailable) []
  | .clientError => []

/-- Lines 141 to 149: the device-registry entry created for one summary;
its name is the raw `car.get("licensePlate", vin)` value, with no
empty-plate fallback. -/
def loadedDevEntry (s : VehicleSummary) : DevRegEntry :=
  { identifier := resolvedVin s
    name := pyGetD s.licensePlate (resolvedVin s)
    model := s.baumusterDescription
    sw_version := s.starArchitecture }

/-- The three per-vehicle remote calls every non-excluded iteration
issues before the RCP branch: capabilities, command capabilities, and
the RCP support probe. -/
def preCallsOf (s : VehicleSummary) : List ApiCall :=
  [.getCarCapabilities (resolvedVin s), .getCarCapabilitiesCommands (resolvedVin s),
    .isCarRcpSupported (resolvedVin s)]

/-- One iteration of the vehicle-load loop of `async_setup_entry`
(lines 102 to 195) on one master-data summary. Exclusion is checked
first; the two capability fetches absorb client errors locally (their
`try`/`except aiohttp.ClientError` blocks); the device-registry entry is
created; `is_car_rcp_supported` is awaited with no local handler, so its
client error escapes; the RCP options record the returned flag, the
local `rcp_supported` variable is then overwritten with `False` before
the branch; finally the car is built and appended, with the
empty-or-whitespace license plate falling back to the vehicle identity. -/
def processVehicle (api : Api) (excluded : List String) (now : Nat)
    (s : VehicleSummary) (st : LoopState) : LoopState × Option LoopErr :=
  let vin := resolvedVin s
  if vinExcluded vin excluded then (st, none)
  else
    let _cai : Unit :=
      match api.get_car_capabilities vin with
      | .ok u => u
      | .clientError => ()
    let features : Features := loadedFeatures api vin
    let devEntry : DevRegEntry := loadedDevEntry s
    let preCalls : List ApiCall := preCallsOf s
    match api.is_car_rcp_supported vin with
    | .clientError =>
      ({ st with
          calls := st.calls ++ preCalls
          devEntries := st.devEntries ++ [devEntry] },
        some .clientError)
    | .ok rcp_supported0 =>
      let rcp_options : RcpOptions :=
        { rcp_supported := some ⟨.vBool rcp_supported0, "VALID", 0⟩ }
      let rcp_supported := false
      let branch :=
        if rcp_supported then rcpBranch api vin rcp_options
        else (rcp_options, [], none)
      let st' : LoopState :=
        { st with
            calls := st.calls ++ preCalls ++ branch.2.1
            devEntries := st.devEntries ++ [devEntry] }
      match branch.2.2 with
      | some e => (st', some e)
      | none =>
        match pyGetD s.licensePlate vin with
        | none => (st', some .attributeError)
        | some lp =>
          let licenseplate := if pyStripEmpty lp then vin else some lp
          let car : Car :=
            { finorvin := vin
              licenseplate := licenseplate
              features := features
              rcp_options := branch.1
              last_message_received := now
              is_owner := s.isOwner }
          ({ st' with cars := st'.cars ++ [car] }, none)

/-- The vehicle-load loop over the master-data list: iterations run in
order and the first escaped exception aborts the loop, keeping the
effects already performed. -/
def carsLoop (api : Api) (excluded : List String) (now : Nat) :
    List VehicleSummary → LoopState → LoopState × Option LoopErr
  | [], st => (st, none)
  | s :: rest, st =>
    match processVehicle api excluded now s st with
    | (st', some err) => (st', some err)
    | (st', none) => carsLoop api excluded now rest st'

/-- Inputs of `async_setup_entry` that its outcome depends on: the cached
token fetch, the REST collaborator, the excluded-cars option, the clock,
and the result of the trailing `update_poll_states` call. -/
structure SetupInput where
  cached_token : FetchResult (Option Unit)
  api : Api
  excluded_cars : List String
  now : Nat
  update_poll_states : FetchResult Unit

/-- Outcome of `async_setup_entry`: `ConfigEntryNotReady` raised, `False`
returned after starting a reauthentication flow, an uncaught Python
exception, or success with the published context (cars, device entries,
calls issued). -/
inductive SetupResult where
  | notReady : SetupResult
  | authFailed : SetupResult
  | pyError : SetupResult
  | ok : List Car → List DevRegEntry → List ApiCall → SetupResult

/-- Embedding of `async_setup_entry` (lines 66 to 212): a client error
from the cached-token fetch raises `ConfigEntryNotReady` (line 84); an
absent token returns `False` (line 95); a client error from
`get_user_info`, from the loop, or from `update_poll_states` is caught
at line 203 and raises `ConfigEntryNotReady`; an `AttributeError`
escapes uncaught; otherwise the context is published to `hass.data`. -/
def async_setup_entry (inp : SetupInput) : SetupResult :=
  match inp.cached_token with
  | .clientError => .notReady
  | .ok none => .authFailed
  | .ok (some _) =>
    match inp.api.get_user_info with
    | .clientError => .notReady
    | .ok masterdata =>
      match carsLoop inp.api inp.excluded_cars inp.now masterdata ⟨[], [], []⟩ with
      | (_, some .clientError) => .notReady
      | (_, some .attributeError) => .pyError
      | (st, none) =>
        match inp.update_poll_states with
        | .clientError => .notReady
        | .ok _ => .ok st.cars st.devEntries st.calls

/-- State of `MercedesMeContext` relevant to `on_dataload_complete`. -/
structure CtxState where
  entry_setup_complete : Bool
deriving Repr, DecidableEq

/-- Embedding of `MercedesMeContext.on_dataload_complete` (lines 273 to
294): forwards platform setup exactly when the latch is still clear
(the returned boolean), then sets the latch unconditionally. -/
def on_dataload_complete (s : CtxState) : CtxState × Bool :=
  (⟨true⟩, !s.entry_setup_complete)

/-- Run `n` successive invocations of `on_dataload_complete`, returning
the final state and how many invocations forwarded platform setup. -/
def runDataloadComplete : Nat → CtxState → CtxState × Nat
  | 0, s => (s, 0)
  | n + 1, s =>
    let r := on_dataload_complete s
    let rest := runDataloadComplete n r.1
    (rest.1, (if r.2 then 1 else 0) + rest.2)

/-- Embedding of `MercedesMeEntity.__init__` line 332: `next(car for car
in self._data.client.cars if car.finorvin == self._vin)` with no
default. `none` models the `StopIteration` escaping the constructor. -/
def MercedesMeEntity_init (cars : List Car) (vin : String) : Option Car :=
  cars.find? (fun c => c.finorvin == some vin)

/-- Sample car attribute tree for concrete evaluations: a `doors`
feature whose `lockstate` object carries only a `value`. -/
def carSample : PyVal :=
  .vObj [("doors", .vObj [("lockstate", .vObj [("value", .vStr "2")])])]

/-- Sample master-data summary with a distinct VIN and plate. -/
def summaryW1 : VehicleSummary :=
  { vin := some "W1"
    fin := none
    licensePlate := some "AB-123"
    isOwner := some true
    baumusterDescription := "S"
    starArchitecture := none }

/-- Sample summary whose reported plate is whitespace-only. -/
def summaryBlankPlate : VehicleSummary :=
  { vin := some "W2"
    fin := none
    licensePlate := some " "
    isOwner := some false
    baumusterDescription := "S"
    starArchitecture := none }

/-- Sample REST collaborator on which every call succeeds. -/
def apiOk : Api :=
  { get_user_info := .ok [summaryW1, summaryBlankPlate]
    get_car_capabilities := fun _ => .ok ()
    get_car_capabilities_commands := fun _ => .ok [⟨"engineStart", true⟩]
    is_car_rcp_supported := fun _ => .ok true
    get_car_rcp_supported_settings := fun _ => .ok none
    get_car_rcp_settings := fun _ _ => .ok none }

/-- Sample REST collaborator whose RCP support probe fails with a
client error while everything else succeeds. -/
def apiRcpDown : Api :=
  { get_user_info := .ok [summaryW1]
    get_car_capabilities := fun _ => .ok ()
    get_car_capabilities_commands := fun _ => .ok []
    is_car_rcp_supported := fun _ => .clientError
    get_car_rcp_supported_settings := fun _ => .ok none
    get_car_rcp_settings := fun _ _ => .ok none }

/-- The empty loop state every run of the loop starts from. -/
def st0 : LoopState := ⟨[], [], []⟩

/-- Sample REST collaborator on which both capability fetches fail with
a client error while the RCP probe succeeds. -/
def apiCmdDown : Api :=
  { get_user_info := .ok [summaryW1]
    get_car_capabilities := fun _ => .clientError
    get_car_capabilities_commands := fun _ => .clientError
    is_car_rcp_supported := fun _ => .ok true
    get_car_rcp_supported_settings := fun _ => .ok none
    get_car_rcp_settings := fun _ _ => .ok none }

/-- Sample setup input whose cached-token fetch fails with a client
error. -/
def inpTokenDown : SetupInput :=
  { cached_token := .clientError
    api := apiOk
    excluded_cars := []
    now := 0
    update_poll_states := .ok () }

theorem pyGetattr_scalar (d : PyVal) (hd : d.isObj = false) (n : String) :
    pyGetattr d n d = d := by
  cases d <;> simp [PyVal.isObj] at hd ⊢ <;> rfl

theorem pyGetattr_notObj (car : PyVal) (hcar : car.isObj = false) (n : String) (d : PyVal) :
    pyGetattr car n d = d := by
  cases car <;> simp [PyVal.isObj] at hcar ⊢ <;> rfl

theorem pyLookup_notObj (car : PyVal) (hcar : car.isObj = false) (n : String)
    (rest : List String) : pyLookup car (n :: rest) = none := by
  cases car <;> simp [PyVal.isObj] at hcar ⊢ <;> rfl

theorem chainGet_scalar (d : PyVal) (hd : d.isObj = false) :
    ∀ path : List String, chainGet d path d = d := by
  intro path
  induction path with
  | nil => rfl
  | cons n rest ih =>
    simp only [chainGet, List.foldl_cons, pyGetattr_scalar d hd n]
    exact ih

theorem chainGet_lookup (d : PyVal) (hd : d.isObj = false) :
    ∀ (path : List String) (car : PyVal),
      (pyLookup car path = none → chainGet car path d = d)
      ∧ (∀ w, pyLookup car path = some w → chainGet car path d = w) := by
  intro path
  induction path with
  | nil =>
    intro car
    refine ⟨fun h => ?_, fun w hw => ?_⟩
    · simp [pyLookup] at h
    · simp only [pyLookup] at hw
      cases hw
      rfl
  | cons n rest ih =>
    intro car
    by_cases hobj : car.isObj = true
    · obtain ⟨fields, rfl⟩ : ∃ fields, car = PyVal.vObj fields := by
        cases car with
        | vObj fields => exact ⟨fields, rfl⟩
        | vNone => simp [PyVal.isObj] at hobj
        | vStr a => simp [PyVal.isObj] at hobj
        | vBool a => simp [PyVal.isObj] at hobj
        | vNat a => simp [PyVal.isObj] at hobj
        | vList a => simp [PyVal.isObj] at hobj
      cases hf : fields.lookup n with
      | some x =>
        have hstep : pyGetattr (PyVal.vObj fields) n d = x := by simp [pyGetattr, hf]
        have hlk : pyLookup (PyVal.vObj fields) (n :: rest) = pyLookup x rest := by
          simp [pyLookup, hf]
        refine ⟨fun h => ?_, fun w hw => ?_⟩
        · rw [hlk] at h
          have h2 := (ih x).1 h
          simpa [chainGet, List.foldl_cons, hstep] using h2
        · rw [hlk] at hw
          have h2 := (ih x).2 w hw
          simpa [chainGet, List.foldl_cons, hstep] using h2
      | none =>
        have hstep : pyGetattr (PyVal.vObj fields) n d = d := by simp [pyGetattr, hf]
        refine ⟨fun _ => ?_, fun w hw => ?_⟩
        · simp only [chainGet, List.foldl_cons, hstep]
          exact chainGet_scalar d hd rest
        · simp [pyLookup, hf] at hw
    · rw [Bool.not_eq_true] at hobj
      refine ⟨fun _ => ?_, fun w hw => ?_⟩
      · simp only [chainGet, List.foldl_cons, pyGetattr_notObj car hobj n d]
        exact chainGet_scalar d hd rest
      · rw [pyLookup_notObj car hobj n rest] at hw
        cases hw

theorem get_car_value_eq_chain (car : PyVal) (feature object_name attrib_name : String)
    (d : PyVal) :
    get_car_value car feature object_name attrib_name d =
      chainGet car (carValuePath feature object_name attrib_name) d := by
  unfold get_car_value carValuePath
  split_ifs <;> simp [chainGet]

theorem vinExcluded_eq_false_of_not_mem (s : VehicleSummary) (excluded : List String)
    (v : String) (hmem : v ∈ excluded)
    (hex : vinExcluded (resolvedVin s) excluded = false) :
    resolvedVin s ≠ some v := by
  intro hv
  rw [hv] at hex
  simp [vinExcluded, hmem] at hex

theorem preCallsOf_vinOf (s : VehicleSummary) :
    ∀ c ∈ preCallsOf s, c.vinOf = resolvedVin s := by
  intro c hc
  simp only [preCallsOf, List.mem_cons, List.not_mem_nil, or_false] at hc
  rcases hc with h | h | h <;> rw [h] <;> rfl

theorem preCallsOf_not_rcp (s : VehicleSummary) :
    ∀ c ∈ preCallsOf s, isRcpSettingsFetch c = false := by
  intro c hc
  simp only [preCallsOf, List.mem_cons, List.not_mem_nil, or_false] at hc
  rcases hc with h | h | h <;> rw [h] <;> rfl

/-- Shape of a successful loop iteration: not excluded, RCP probe
answers, license plate value present — exactly one car appended, one
device entry created, the three pre-branch calls issued. -/
theorem processVehicle_ok (api : Api) (excluded : List String) (now : Nat)
    (s : VehicleSummary) (st : LoopState) (b : Bool) (lp : String)
    (hex : vinExcluded (resolvedVin s) excluded = false)
    (hrcp : api.is_car_rcp_supported (resolvedVin s) = .ok b)
    (hlp : pyGetD s.licensePlate (resolvedVin s) = some lp) :
    processVehicle api excluded now s st =
      ({ cars := st.cars ++
          [{ finorvin := resolvedVin s
             licenseplate := if pyStripEmpty lp then resolvedVin s else some lp
             features := loadedFeatures api (resolvedVin s)
             rcp_options := { rcp_supported := some ⟨.vBool b, "VALID", 0⟩ }
             last_message_received := now
             is_owner := s.isOwner }]
         devEntries := st.devEntries ++ [loadedDevEntry s]
         calls := st.calls ++ preCallsOf s }, none) := by
  simp [processVehicle, hex, hrcp, hlp]

/-- Shape of a skipped iteration: the summary resolves to an excluded
identity, so the loop body performs no effect at all. -/
theorem processVehicle_skip (api : Api) (excluded : List String) (now : Nat)
    (s : VehicleSummary) (st : LoopState)
    (hex : vinExcluded (resolvedVin s) excluded = true) :
    processVehicle api excluded now s st = (st, none) := by
  simp [processVehicle, hex]

/-- Shape of an iteration aborted by a client error from the unguarded
`is_car_rcp_supported` await: the device entry was already created and
the three calls issued, but no car is appended and the error escapes. -/
theorem processVehicle_rcpError (api : Api) (excluded : List String) (now : Nat)
    (s : VehicleSummary) (st : LoopState)
    (hex : vinExcluded (resolvedVin s) excluded = false)
    (hrcp : api.is_car_rcp_supported (resolvedVin s) = .clientError) :
    processVehicle api excluded now s st =
      ({ cars := st.cars
         devEntries := st.devEntries ++ [loadedDevEntry s]
         calls := st.calls ++ preCallsOf s }, some .clientError) := by
  simp [processVehicle, hex, hrcp]

/-- Shape of an iteration aborted by `None.strip()`: both the plate key
and the resolved identity are absent, so building the car raises an
`AttributeError` after the device entry and the calls already happened. -/
theorem processVehicle_lpNone (api : Api) (excluded : List String) (now : Nat)
    (s : VehicleSummary) (st : LoopState) (b : Bool)
    (hex : vinExcluded (resolvedVin s) excluded = false)
    (hrcp : api.is_car_rcp_supported (resolvedVin s) = .ok b)
    (hlp : pyGetD s.licensePlate (resolvedVin s) = none) :
    processVehicle api excluded now s st =
      ({ cars := st.cars
         devEntries := st.devEntries ++ [loadedDevEntry s]
         calls := st.calls ++ preCallsOf s }, some .attributeError) := by
  simp [processVehicle, hex, hrcp, hlp]

/-- Every effect of one loop iteration is either inherited from the
incoming state or attributable to this (non-excluded) summary; every
car appended records the RCP probe answer wrapped as a VALID attribute. -/
theorem processVehicle_effects (api : Api) (excluded : List String) (now : Nat)
    (s : VehicleSummary) (st : LoopState) :
    (∀ c ∈ (processVehicle api excluded now s st).1.calls,
        c ∈ st.calls ∨ (vinExcluded (resolvedVin s) excluded = false ∧ c ∈ preCallsOf s))
    ∧ (∀ d ∈ (processVehicle api excluded now s st).1.devEntries,
        d ∈ st.devEntries ∨ (vinExcluded (resolvedVin s) excluded = false
          ∧ d = loadedDevEntry s))
    ∧ (∀ car ∈ (processVehicle api excluded now s st).1.cars,
        car ∈ st.cars ∨ (vinExcluded (resolvedVin s) excluded = false
          ∧ car.finorvin = resolvedVin s
          ∧ ∃ b, api.is_car_rcp_supported (resolvedVin s) = .ok b
              ∧ car.rcp_options.rcp_supported = some ⟨.vBool b, "VALID", 0⟩)) := by
  by_cases hex : vinExcluded (resolvedVin s) excluded = true
  · rw [processVehicle_skip api excluded now s st hex]
    exact ⟨fun c hc => Or.inl hc, fun d hd => Or.inl hd, fun car hcar => Or.inl hcar⟩
  · rw [Bool.not_eq_true] at hex
    cases hrcp : api.is_car_rcp_supported (resolvedVin s) with
    | clientError =>
      rw [processVehicle_rcpError api excluded now s st hex hrcp]
      refine ⟨fun c hc => ?_, fun d hd => ?_, fun car hcar => Or.inl hcar⟩
      · rcases List.mem_append.mp hc with h | h
        · exact Or.inl h
        · exact Or.inr ⟨hex, h⟩
      · rcases List.mem_append.mp hd with h | h
        · exact Or.inl h
        · exact Or.inr ⟨hex, List.mem_singleton.mp h⟩
    | ok b =>
      cases hlp : pyGetD s.licensePlate (resolvedVin s) with
      | none =>
        rw [processVehicle_lpNone api excluded now s st b hex hrcp hlp]
        refine ⟨fun c hc => ?_, fun d hd => ?_, fun car hcar => Or.inl hcar⟩
        · rcases List.mem_append.mp hc with h | h
          · exact Or.inl h
          · exact Or.inr ⟨hex, h⟩
        · rcases List.mem_append.mp hd with h | h
          · exact Or.inl h
          · exact Or.inr ⟨hex, List.mem_singleton.mp h⟩
      | some lp =>
        rw [processVehicle_ok api excluded now s st b lp hex hrcp hlp]
        refine ⟨fun c hc => ?_, fun d hd => ?_, fun car hcar => ?_⟩
        · rcases List.mem_append.mp hc with h | h
          · exact Or.inl h
          · exact Or.inr ⟨hex, h⟩
        · rcases List.mem_append.mp hd with h | h
          · exact Or.inl h
          · exact Or.inr ⟨hex, List.mem_singleton.mp h⟩
        · rcases List.mem_append.mp hcar with h | h
          · exact Or.inl h
          · have hcar' := List.mem_singleton.mp h
            subst hcar'
            exact Or.inr ⟨hex, rfl, b, rfl, rfl⟩

/-- Loop-level version of `processVehicle_effects`: every effect of the
whole vehicle-load loop is inherited from the initial state or
attributable to some non-excluded summary of the master-data list. -/
theorem carsLoop_effects (api : Api) (excluded : List String) (now : Nat)
    (summaries : List VehicleSummary) :
    ∀ st : LoopState,
    (∀ c ∈ (carsLoop api excluded now summaries st).1.calls,
        c ∈ st.calls ∨ ∃ s ∈ summaries,
          vinExcluded (resolvedVin s) excluded = false ∧ c ∈ preCallsOf s)
    ∧ (∀ d ∈ (carsLoop api excluded now summaries st).1.devEntries,
        d ∈ st.devEntries ∨ ∃ s ∈ summaries,
          vinExcluded (resolvedVin s) excluded = false ∧ d = loadedDevEntry s)
    ∧ (∀ car ∈ (carsLoop api excluded now summaries st).1.cars,
        car ∈ st.cars ∨ ∃ s ∈ summaries,
          vinExcluded (resolvedVin s) excluded = false
          ∧ car.finorvin = resolvedVin s
          ∧ ∃ b, api.is_car_rcp_supported (resolvedVin s) = .ok b
              ∧ car.rcp_options.rcp_supported = some ⟨.vBool b, "VALID", 0⟩) := by
  induction summaries with
  | nil =>
    intro st
    exact ⟨fun c hc => Or.inl hc, fun d hd => Or.inl hd, fun car hcar => Or.inl hcar⟩
  | cons s rest ih =>
    intro st
    have he := processVehicle_effects api excluded now s st
    cases hp : processVehicle api excluded now s st with
    | mk st' e =>
      rw [hp] at he
      cases e with
      | some err =>
        have hred : carsLoop api excluded now (s :: rest) st = (st', some err) := by
          simp [carsLoop, hp]
        rw [hred]
        refine ⟨fun c hc => ?_, fun d hd => ?_, fun car hcar => ?_⟩
        · rcases he.1 c hc with h | ⟨hx, hpre⟩
          · exact Or.inl h
          · exact Or.inr ⟨s, List.mem_cons_self s rest, hx, hpre⟩
        · rcases he.2.1 d hd with h | ⟨hx, hde⟩
          · exact Or.inl h
          · exact Or.inr ⟨s, List.mem_cons_self s rest, hx, hde⟩
        · rcases he.2.2 car hcar with h | ⟨hx, hrest⟩
          · exact Or.inl h
          · exact Or.inr ⟨s, List.mem_cons_self s rest, hx, hrest⟩
      | none =>
        have hred : carsLoop api excluded now (s :: rest) st =
            carsLoop api excluded now rest st' := by
          simp [carsLoop, hp]
        rw [hred]
        have ihst := ih st'
        refine ⟨fun c hc => ?_, fun d hd => ?_, fun car hcar => ?_⟩
        · rcases ihst.1 c hc with h | ⟨s2, hs2, hx, hpre⟩
          · rcases he.1 c h with h2 | ⟨hx, hpre⟩
            · exact Or.inl h2
            · exact Or.inr ⟨s, List.mem_cons_self s rest, hx, hpre⟩
          · exact Or.inr ⟨s2, List.mem_cons_of_mem s hs2, hx, hpre⟩
        · rcases ihst.2.1 d hd with h | ⟨s2, hs2, hx, hde⟩
          · rcases he.2.1 d h with h2 | ⟨hx, hde⟩
            · exact Or.inl h2
            · exact Or.inr ⟨s, List.mem_cons_self s rest, hx, hde⟩
          · exact Or.inr ⟨s2, List.mem_cons_of_mem s hs2, hx, hde⟩
        · rcases ihst.2.2 car hcar with h | ⟨s2, hs2, hx, hrest⟩
          · rcases he.2.2 car h with h2 | ⟨hx, hrest⟩
            · exact Or.inl h2
            · exact Or.inr ⟨s, List.mem_cons_self s rest, hx, hrest⟩
          · exact Or.inr ⟨s2, List.mem_cons_of_mem s hs2, hx, hrest⟩

theorem runDataload_latched : ∀ n : Nat, runDataloadComplete n ⟨true⟩ = (⟨true⟩, 0) := by
  intro n
  induction n with
  | zero => rfl
  | succ m ih => simp [runDataloadComplete, on_dataload_complete, ih]

/-- C1: the local RCP-support flag is overwritten with `False` before
the branch at line 156, so no run of the vehicle-load loop ever issues
the RCP supported-settings fetch or any per-setting fetch, while every
car the loop body appends still records the value originally returned
by `is_car_rcp_supported` wrapped as `CarAttribute(value, "VALID", 0)`. -/
theorem rcp_branch_never_runs (api : Api) (excluded : List String) (now : Nat)
    (summaries : List VehicleSummary) (s : VehicleSummary) (st : LoopState) (b : Bool)
    (hb : api.is_car_rcp_supported (resolvedVin s) = .ok b) :
    (∀ call ∈ (carsLoop api excluded now summaries st0).1.calls,
        isRcpSettingsFetch call = false)
    ∧ (∀ car ∈ (processVehicle api excluded now s st).1.cars,
        car ∈ st.cars ∨ car.rcp_options.rcp_supported = some ⟨.vBool b, "VALID", 0⟩) := by
  constructor
  · intro call hc
    rcases (carsLoop_effects api excluded now summaries st0).1 call hc with
      h | ⟨s2, _, _, hpre⟩
    · simp [st0] at h
    · exact preCallsOf_not_rcp s2 call hpre
  · intro car hcar
    rcases (processVehicle_effects api excluded now s st).2.2 car hcar with
      h | ⟨_, _, b2, hb2, hrc⟩
    · exact Or.inl h
    · rw [hb] at hb2
      cases hb2
      exact Or.inr hrc

/-- C2 counterexample: with a collaborator whose `is_car_rcp_supported`
call fails with a client error, the vehicle is not appended, the error
escapes the vehicle-load loop, and the whole setup raises
`ConfigEntryNotReady` — against the claim that any per-vehicle
capability fetch failure leaves the vehicle loaded with defaults. -/
theorem rcp_probe_error_drops_vehicle :
    (carsLoop apiRcpDown [] 0 [summaryW1] st0).1.cars = []
    ∧ (carsLoop apiRcpDown [] 0 [summaryW1] st0).2 = some .clientError
    ∧ async_setup_entry ⟨.ok (some ()), apiRcpDown, [], 0, .ok ()⟩ = .notReady :=
  ⟨rfl, rfl, rfl⟩

/-- C2 (amended): a client error from `get_car_capabilities` or from
`get_car_capabilities_commands` is absorbed and the vehicle is still
appended, with its features left at defaults when the commands fetch
failed; only the unguarded `is_car_rcp_supported` fetch can abort the
loop. -/
theorem capability_fetch_failure_nonfatal (api : Api) (excluded : List String) (now : Nat)
    (s : VehicleSummary) (st : LoopState) (v : String) (b : Bool)
    (hv : resolvedVin s = some v)
    (hex : vinExcluded (resolvedVin s) excluded = false)
    (hrcp : api.is_car_rcp_supported (resolvedVin s) = .ok b) :
    ∃ car, (processVehicle api excluded now s st).1.cars = st.cars ++ [car]
      ∧ (processVehicle api excluded now s st).2 = none
      ∧ (api.get_car_capabilities_commands (resolvedVin s) = .clientError →
          car.features = []) := by
  obtain ⟨lp, hlp⟩ : ∃ lp, pyGetD s.licensePlate (resolvedVin s) = some lp := by
    cases hpl : s.licensePlate with
    | some p => exact ⟨p, by simp [pyGetD, hpl]⟩
    | none => exact ⟨v, by simp [pyGetD, hpl, hv]⟩
  rw [processVehicle_ok api excluded now s st b lp hex hrcp hlp]
  refine ⟨_, rfl, rfl, fun hcmd => ?_⟩
  simp [loadedFeatures, hcmd]

/-- C3: a reported license plate that is absent, empty or
whitespace-only falls back to the vehicle identity on the created car;
a non-blank plate is kept as reported. -/
theorem licenseplate_fallback (api : Api) (excluded : List String) (now : Nat)
    (s : VehicleSummary) (st : LoopState) (v : String) (b : Bool)
    (hv : resolvedVin s = some v)
    (hex : vinExcluded (resolvedVin s) excluded = false)
    (hrcp : api.is_car_rcp_supported (resolvedVin s) = .ok b) :
    ∃ car, (processVehicle api excluded now s st).1.cars = st.cars ++ [car]
      ∧ ((s.licensePlate = none ∨
            ∃ p, s.licensePlate = some p ∧ pyStripEmpty p = true) →
          car.licenseplate = some v)
      ∧ (∀ p, s.licensePlate = some p → pyStripEmpty p = false →
          car.licenseplate = some p) := by
  cases hpl : s.licensePlate with
  | none =>
    have hlp : pyGetD s.licensePlate (resolvedVin s) = some v := by
      simp [pyGetD, hpl, hv]
    rw [processVehicle_ok api excluded now s st b v hex hrcp hlp]
    refine ⟨_, rfl, fun _ => ?_, fun p hp => ?_⟩
    · show (if pyStripEmpty v then resolvedVin s else some v) = some v
      by_cases hv0 : pyStripEmpty v = true
      · simp [hv0, hv]
      · rw [Bool.not_eq_true] at hv0
        simp [hv0]
    · cases hp
  | some p =>
    have hlp : pyGetD s.licensePlate (resolvedVin s) = some p := by
      simp [pyGetD, hpl]
    rw [processVehicle_ok api excluded now s st b p hex hrcp hlp]
    by_cases htrim : pyStripEmpty p = true
    · refine ⟨_, rfl, fun _ => ?_, fun q hq hq2 => ?_⟩
      · show (if pyStripEmpty p then resolvedVin s else some p) = some v
        simp [htrim, hv]
      · cases hq
        rw [htrim] at hq2
        cases hq2
    · rw [Bool.not_eq_true] at htrim
      refine ⟨_, rfl, fun habs => ?_, fun q hq hq2 => ?_⟩
      · rcases habs with h | ⟨q, hq, hqt⟩
        · cases h
        · cases hq
          rw [htrim] at hqt
          cases hqt
      · cases hq
        show (if pyStripEmpty p then resolvedVin s else some p) = some p
        simp [htrim]

/-- C4: the consumer read path never raises (it is a total function in
this embedding) and returns the supplied scalar default whenever any
segment of the attribute path is absent on the car, and the stored
value when the whole path is present. -/
theorem get_car_value_absent_default (car : PyVal)
    (feature object_name attrib_name : String) (d : PyVal) (hd : d.isObj = false) :
    (pyLookup car (carValuePath feature object_name attrib_name) = none →
      get_car_value car feature object_name attrib_name d = d)
    ∧ ∀ w, pyLookup car (carValuePath feature object_name attrib_name) = some w →
      get_car_value car feature object_name attrib_name d = w := by
  have h := chainGet_lookup d hd (carValuePath feature object_name attrib_name) car
  rw [get_car_value_eq_chain]
  exact h

/-- C5: a vehicle identity listed in the excluded-cars option is never
appended to the registry, no per-vehicle remote call is issued for it,
and no device-registry entry is created for it: exclusion is decided at
ingestion, before any capability fetch or registry insertion. -/
theorem excluded_car_never_ingested (api : Api) (excluded : List String) (now : Nat)
    (summaries : List VehicleSummary) (v : String) (hv : v ∈ excluded) :
    (∀ car ∈ (carsLoop api excluded now summaries st0).1.cars, car.finorvin ≠ some v)
    ∧ (∀ call ∈ (carsLoop api excluded now summaries st0).1.calls, call.vinOf ≠ some v)
    ∧ (∀ d ∈ (carsLoop api excluded now summaries st0).1.devEntries,
        d.identifier ≠ some v) := by
  have he := carsLoop_effects api excluded now summaries st0
  refine ⟨fun car hcar => ?_, fun call hc => ?_, fun d hd => ?_⟩
  · rcases he.2.2 car hcar with h | ⟨s, _, hex, hfin, _⟩
    · simp [st0] at h
    · rw [hfin]
      exact vinExcluded_eq_false_of_not_mem s excluded v hv hex
  · rcases he.1 call hc with h | ⟨s, _, hex, hpre⟩
    · simp [st0] at h
    · rw [preCallsOf_vinOf s call hpre]
      exact vinExcluded_eq_false_of_not_mem s excluded v hv hex
  · rcases he.2.1 d hd with h | ⟨s, _, hex, hde⟩
    · simp [st0] at h
    · rw [hde]
      exact vinExcluded_eq_false_of_not_mem s excluded v hv hex

/-- C6: over any sequence of one or more `on_dataload_complete`
invocations starting with a clear latch, platform setup is forwarded
exactly once — on the first invocation — and the latch is set after any
invocation and stays set, so later invocations never forward again. -/
theorem dataload_setup_forwarded_once (n : Nat) (h : 1 ≤ n) :
    runDataloadComplete n ⟨false⟩ = (⟨true⟩, 1)
    ∧ on_dataload_complete ⟨false⟩ = (⟨true⟩, true)
    ∧ on_dataload_complete ⟨true⟩ = (⟨true⟩, false) := by
  refine ⟨?_, rfl, rfl⟩
  cases n with
  | zero => omega
  | succ m =>
    simp [runDataloadComplete, on_dataload_complete, runDataload_latched m]

/-- C7: a client error from the cached-token fetch, or from the
vehicle-list fetch once a token is present, makes `async_setup_entry`
raise `ConfigEntryNotReady`; in particular no context with vehicles is
published to `hass.data` — setup fails whole rather than partially. -/
theorem session_failure_not_ready (inp : SetupInput)
    (h : inp.cached_token = .clientError ∨
      (inp.cached_token = .ok (some ()) ∧ inp.api.get_user_info = .clientError)) :
    async_setup_entry inp = .notReady
    ∧ ∀ cars devs calls, async_setup_entry inp ≠ .ok cars devs calls := by
  have hmain : async_setup_entry inp = .notReady := by
    rcases h with h | ⟨h1, h2⟩
    · simp [async_setup_entry, h]
    · simp [async_setup_entry, h1, h2]
  refine ⟨hmain, fun cars devs calls hok => ?_⟩
  rw [hmain] at hok
  cases hok

/-- C8: the identity key of the created car is the summary's `vin` key
when present and its `fin` key otherwise. -/
theorem finorvin_is_vin_or_fin (api : Api) (excluded : List String) (now : Nat)
    (s : VehicleSummary) (st : LoopState) (v : String) (b : Bool)
    (hv : resolvedVin s = some v)
    (hex : vinExcluded (resolvedVin s) excluded = false)
    (hrcp : api.is_car_rcp_supported (resolvedVin s) = .ok b) :
    ∃ car, (processVehicle api excluded now s st).1.cars = st.cars ++ [car]
      ∧ car.finorvin = resolvedVin s
      ∧ (∀ w, s.vin = some w → car.finorvin = some w)
      ∧ (s.vin = none → car.finorvin = s.fin) := by
  obtain ⟨lp, hlp⟩ : ∃ lp, pyGetD s.licensePlate (resolvedVin s) = some lp := by
    cases hpl : s.licensePlate with
    | some p => exact ⟨p, by simp [pyGetD, hpl]⟩
    | none => exact ⟨v, by simp [pyGetD, hpl, hv]⟩
  rw [processVehicle_ok api excluded now s st b lp hex hrcp hlp]
  refine ⟨_, rfl, rfl, fun w hw => ?_, fun hn => ?_⟩
  · show resolvedVin s = some w
    simp [resolvedVin, hw]
  · show resolvedVin s = s.fin
    simp [resolvedVin, hn]

/-- C9: the entity constructor of line 332 succeeds exactly when some
registered car carries the requested identity; with no match the bare
`next(...)` raises `StopIteration`, modelled as `none`. -/
theorem entity_init_requires_known_vin (cars : List Car) (vin : String) :
    (MercedesMeEntity_init cars vin).isSome = true ↔
      ∃ c ∈ cars, c.finorvin = some vin := by
  rw [MercedesMeEntity_init, List.find?_isSome]
  constructor
  · rintro ⟨c, hc, hcv⟩
    exact ⟨c, hc, by simpa using hcv⟩
  · rintro ⟨c, hc, hcv⟩
    exact ⟨c, hc, by simpa using hcv⟩

/-- C10: for a whitespace-only reported plate, the device-registry
entry keeps the raw plate string as its name while the created car
falls back to the vehicle identity — the two displayed identities
diverge because the blank-plate fallback is applied only to the car. -/
theorem devreg_name_keeps_blank_plate (api : Api) (excluded : List String) (now : Nat)
    (s : VehicleSummary) (st : LoopState) (v p : String) (b : Bool)
    (hv : resolvedVin s = some v)
    (hex : vinExcluded (resolvedVin s) excluded = false)
    (hrcp : api.is_car_rcp_supported (resolvedVin s) = .ok b)
    (hp : s.licensePlate = some p) (hblank : pyStripEmpty p = true) :
    ∃ car dev,
      (processVehicle api excluded now s st).1.cars = st.cars ++ [car]
      ∧ (processVehicle api excluded now s st).1.devEntries = st.devEntries ++ [dev]
      ∧ dev.name = some p
      ∧ car.licenseplate = some v := by
  have hlp : pyGetD s.licensePlate (resolvedVin s) = some p := by simp [pyGetD, hp]
  rw [processVehicle_ok api excluded now s st b p hex hrcp hlp]
  refine ⟨_, _, rfl, rfl, ?_, ?_⟩
  · show (loadedDevEntry s).name = some p
    simp [loadedDevEntry, pyGetD, hp]
  · show (if pyStripEmpty p then resolvedVin s else some p) = some v
    simp [hblank, hv]

theorem rcp_branch_never_runs_witness :
    (∀ call ∈ (carsLoop apiOk [] 0 [summaryW1] st0).1.calls,
        isRcpSettingsFetch call = false)
    ∧ (∀ car ∈ (processVehicle apiOk [] 0 summaryW1 st0).1.cars,
        car ∈ st0.cars ∨
          car.rcp_options.rcp_supported = some ⟨.vBool true, "VALID", 0⟩) :=
  rcp_branch_never_runs apiOk [] 0 [summaryW1] summaryW1 st0 true rfl

theorem capability_fetch_failure_nonfatal_witness :
    ∃ car, (processVehicle apiCmdDown [] 0 summaryW1 st0).1.cars = st0.cars ++ [car]
      ∧ (processVehicle apiCmdDown [] 0 summaryW1 st0).2 = none
      ∧ (apiCmdDown.get_car_capabilities_commands (resolvedVin summaryW1) = .clientError →
          car.features = []) :=
  capability_fetch_failure_nonfatal apiCmdDown [] 0 summaryW1 st0 "W1" true rfl rfl rfl

theorem licenseplate_fallback_witness :
    ∃ car, (processVehicle apiOk [] 0 summaryBlankPlate st0).1.cars = st0.cars ++ [car]
      ∧ ((summaryBlankPlate.licensePlate = none ∨
            ∃ p, summaryBlankPlate.licensePlate = some p ∧ pyStripEmpty p = true) →
          car.licenseplate = some "W2")
      ∧ (∀ p, summaryBlankPlate.licensePlate = some p → pyStripEmpty p = false →
          car.licenseplate = some p) :=
  licenseplate_fallback apiOk [] 0 summaryBlankPlate st0 "W2" true rfl rfl rfl

theorem get_car_value_absent_default_witness :
    pyLookup carSample (carValuePath "doors" "lockstate" "retrievalstatus") = none
    ∧ get_car_value carSample "doors" "lockstate" "retrievalstatus" (.vStr "error") =
        .vStr "error" :=
  ⟨rfl,
    (get_car_value_absent_default carSample "doors" "lockstate" "retrievalstatus"
      (.vStr "error") rfl).1 rfl⟩

theorem excluded_car_never_ingested_witness :
    (∀ car ∈ (carsLoop apiOk ["W1"] 0 [summaryW1] st0).1.cars,
        car.finorvin ≠ some "W1")
    ∧ (∀ call ∈ (carsLoop apiOk ["W1"] 0 [summaryW1] st0).1.calls,
        call.vinOf ≠ some "W1")
    ∧ (∀ d ∈ (carsLoop apiOk ["W1"] 0 [summaryW1] st0).1.devEntries,
        d.identifier ≠ some "W1") :=
  excluded_car_never_ingested apiOk ["W1"] 0 [summaryW1] "W1"
    (List.mem_cons_self "W1" [])

theorem dataload_setup_forwarded_once_witness :
    runDataloadComplete 3 ⟨false⟩ = (⟨true⟩, 1)
    ∧ on_dataload_complete ⟨false⟩ = (⟨true⟩, true)
    ∧ on_dataload_complete ⟨true⟩ = (⟨true⟩, false) :=
  dataload_setup_forwarded_once 3 (by decide)

theorem session_failure_not_ready_witness :
    async_setup_entry inpTokenDown = .notReady
    ∧ ∀ cars devs calls, async_setup_entry inpTokenDown ≠ .ok cars devs calls :=
  session_failure_not_ready inpTokenDown (Or.inl rfl)

theorem finorvin_is_vin_or_fin_witness :
    ∃ car, (processVehicle apiOk [] 0 summaryW1 st0).1.cars = st0.cars ++ [car]
      ∧ car.finorvin = resolvedVin summaryW1
      ∧ (∀ w, summaryW1.vin = some w → car.finorvin = some w)
      ∧ (summaryW1.vin = none → car.finorvin = summaryW1.fin) :=
  finorvin_is_vin_or_fin apiOk [] 0 summaryW1 st0 "W1" true rfl rfl rfl

theorem devreg_name_keeps_blank_plate_witness :
    ∃ car dev,
      (processVehicle apiOk [] 0 summaryBlankPlate st0).1.cars = st0.cars ++ [car]
      ∧ (processVehicle apiOk [] 0 summaryBlankPlate st0).1.devEntries =
          st0.devEntries ++ [dev]
      ∧ dev.name = some " "
      ∧ car.licenseplate = some "W2" :=
  devreg_name_keeps_blank_plate apiOk [] 0 summaryBlankPlate st0 "W2" " " true
    rfl rfl rfl rfl rfl

end Mbapi2020
